import Mathlib

/-!
Verification of the PayRox Go Beyond security post-processing scripts.

The repository holds three CI utility scripts:
  * `process-slither.py` — static-analysis (Slither) report processor,
  * `process-mythril.py` — symbolic-execution (Mythril) report processor,
  * `generate-security-summary.py` — summary aggregator.

Below is a shallow embedding of their data model and the functions the
claims reference, followed by theorems settling the claims.
-/

namespace PayRox

/-! ## Static-analysis (Slither) processor data model -/

/-- One detector record from the Slither JSON report.  `impact` and
`confidence` model the optional JSON keys read by
`detector.get('impact', '')` / `detector.get('confidence', '')`;
`check` and `description` are the fields used in the Markdown output;
`rest` stands for all remaining JSON fields of the record so that a
record copied into an output list is copied verbatim, field for field. -/
structure Detector where
  impact : Option String
  confidence : Option String
  check : String
  description : String
  rest : List (String × String)
  deriving DecidableEq, Repr

/-- The five severity tiers of the static-analysis processor. -/
inductive Tier where
  | critical
  | high
  | medium
  | low
  | informational
  deriving DecidableEq, Repr

/-- Python `str.lower()`: lower-case every character of the string
(character-wise mapping over the string's characters). -/
def pyLower (s : String) : String :=
  ⟨s.data.map Char.toLower⟩

/-- The loop-local variable `impact = detector.get('impact', '').lower()`
(process-slither.py line 36). -/
def normImpact (d : Detector) : String :=
  pyLower (d.impact.getD "")

/-- The loop-local variable
`confidence = detector.get('confidence', '').lower()` (line 37). -/
def normConfidence (d : Detector) : String :=
  pyLower (d.confidence.getD "")

/-- Tier assignment for one detector, embedding the if/elif chain of
`categorize_findings` (process-slither.py lines 36–54): lower-case the
impact and confidence strings, then first match wins. -/
def tierOf (d : Detector) : Tier :=
  let impact := normImpact d
  let confidence := normConfidence d
  if impact = "high" ∧ confidence = "high" then
    Tier.critical
  else if (impact = "high" ∧ confidence = "medium") ∨
      (impact = "medium" ∧ confidence = "high") then
    Tier.high
  else if (impact = "medium" ∧ confidence = "medium") ∨
      (impact = "high" ∧ confidence = "low") then
    Tier.medium
  else if impact = "low" ∨ confidence = "low" then
    Tier.low
  else
    Tier.informational

/-- The five tier buckets built by `categorize_findings`. -/
structure Categories where
  critical : List Detector
  high : List Detector
  medium : List Detector
  low : List Detector
  informational : List Detector
  deriving DecidableEq, Repr

/-- The initial empty categorization dict of `categorize_findings`. -/
def emptyCategories : Categories :=
  { critical := [], high := [], medium := [], low := [], informational := [] }

/-- One loop iteration of `categorize_findings`: append the detector to
the bucket selected by the if/elif chain. -/
def addDetector (c : Categories) (d : Detector) : Categories :=
  match tierOf d with
  | Tier.critical => { c with critical := c.critical ++ [d] }
  | Tier.high => { c with high := c.high ++ [d] }
  | Tier.medium => { c with medium := c.medium ++ [d] }
  | Tier.low => { c with low := c.low ++ [d] }
  | Tier.informational => { c with informational := c.informational ++ [d] }

/-- The shape of a parsed Slither report as `categorize_findings` sees it:
either the dict has no `results` key (this includes the empty dict that
`load_slither_report` returns after a parse failure), or it has `results`
but `results` lacks the `detectors` key, or it has a `results.detectors`
list. -/
inductive SlitherReport where
  | noResults
  | resultsNoDetectors
  | resultsWith (detectors : List Detector)
  deriving DecidableEq, Repr

/-- `categorize_findings` (process-slither.py lines 22–56).  A missing
`results` key returns the empty categorization; a present `results`
value without a `detectors` key raises an uncaught KeyError at
`results['results']['detectors']`, modelled as `none`; otherwise the
detectors list is folded into the buckets. -/
def categorize_findings : SlitherReport → Option Categories
  | SlitherReport.noResults => some emptyCategories
  | SlitherReport.resultsNoDetectors => none
  | SlitherReport.resultsWith ds => some (ds.foldl addDetector emptyCategories)

/-- `load_slither_report` (lines 13–20): a successful parse returns the
parsed report, any exception is caught and the empty dict `{}` is
returned, which is a dict without a `results` key. -/
def load_slither_report (parsed : Option SlitherReport) : SlitherReport :=
  parsed.getD SlitherReport.noResults

/-- `save_critical_issues` (lines 111–116): the JSON array written to
`critical-issues.json` is exactly `categories['critical']`. -/
def critical_issues_json (c : Categories) : List Detector :=
  c.critical

/-- Total findings counted by `generate_summary_markdown` (line 62). -/
def total_findings (c : Categories) : Nat :=
  c.critical.length + c.high.length + c.medium.length + c.low.length +
    c.informational.length

/-- Whether the Markdown summary states "No security issues found!"
(`generate_summary_markdown`, lines 67–70): exactly when the total
finding count is zero. -/
def slither_markdown_no_issues (c : Categories) : Bool :=
  total_findings c = 0

/-- The exit-code decision at the end of `main` (lines 147–153): exit 1
when the critical bucket is non-empty, else exit 0. -/
def slither_exit_code (c : Categories) : Nat :=
  if c.critical.isEmpty then 0 else 1

/-- `main` of process-slither.py for a well-formed invocation with an
existing report file: load (with parse failures degraded to the empty
dict), categorize, and exit by the critical bucket; `none` models the
uncaught KeyError escaping `categorize_findings`. -/
def slither_main (parsed : Option SlitherReport) : Option Nat :=
  (categorize_findings (load_slither_report parsed)).map slither_exit_code

/-- Predicate for the critical rule of the lookup table: lower-cased
impact and confidence are both `high`. -/
def isHighHigh (d : Detector) : Bool :=
  normImpact d = "high" ∧ normConfidence d = "high"

/-! ## Symbolic-execution (Mythril) processor data model -/

/-- One issue record from a Mythril JSON report.  Every field models an
optional JSON key read with `issue.get(...)` in process-mythril.py. -/
structure MythrilIssue where
  severity : Option String
  title : Option String
  description : Option String
  filename : Option String
  function : Option String
  swc_id : Option String
  deriving DecidableEq, Repr

/-- The three severity groups built by `categorize_mythril_findings`. -/
structure MythrilCategories where
  High : List MythrilIssue
  Medium : List MythrilIssue
  Low : List MythrilIssue
  deriving DecidableEq, Repr

/-- The group an issue is placed in (`categorize_mythril_findings`,
lines 38–43): `issue.get('severity', 'Low')`, used as-is when it is one
of the dict keys High/Medium/Low, otherwise defaulted to Low. -/
def mythrilGroup (i : MythrilIssue) : String :=
  let severity := i.severity.getD "Low"
  if severity = "High" ∨ severity = "Medium" ∨ severity = "Low" then severity
  else "Low"

/-- One loop iteration of `categorize_mythril_findings`: append the
issue to `categories[severity]` when the label is a dict key, else to
the Low group. -/
def addIssue (c : MythrilCategories) (i : MythrilIssue) : MythrilCategories :=
  let severity := i.severity.getD "Low"
  if severity = "High" then { c with High := c.High ++ [i] }
  else if severity = "Medium" then { c with Medium := c.Medium ++ [i] }
  else if severity = "Low" then { c with Low := c.Low ++ [i] }
  else { c with Low := c.Low ++ [i] }

/-- `categorize_mythril_findings` (process-mythril.py lines 30–45). -/
def categorize_mythril_findings (issues : List MythrilIssue) : MythrilCategories :=
  issues.foldl addIssue { High := [], Medium := [], Low := [] }

/-- One normalized record of `mythril-summary.json` as assembled by
`generate_mythril_summary` (lines 53–63). -/
structure MythrilSummaryRecord where
  severity : String
  title : String
  description : String
  contract : String
  function : String
  swc_id : String
  deriving DecidableEq, Repr

/-- The record appended for one issue of the group named `sev`
(`generate_mythril_summary`, lines 56–63). -/
def summaryRecord (sev : String) (i : MythrilIssue) : MythrilSummaryRecord :=
  { severity := sev,
    title := i.title.getD "Unknown Issue",
    description := i.description.getD "",
    contract := i.filename.getD "Unknown",
    function := i.function.getD "Unknown",
    swc_id := i.swc_id.getD "" }

/-- The JSON array written to `mythril-summary.json`: the groups are
walked in dict insertion order High, Medium, Low and each issue is
normalized with its group name as severity. -/
def mythril_summary_json (c : MythrilCategories) : List MythrilSummaryRecord :=
  c.High.map (summaryRecord "High") ++ c.Medium.map (summaryRecord "Medium") ++
    c.Low.map (summaryRecord "Low")

/-- The observable outcome of `main` of process-mythril.py for a
well-formed invocation with an existing reports directory. -/
structure MythrilRun where
  summaryJson : List MythrilSummaryRecord
  highAdvisory : Bool
  exitCode : Nat
  deriving DecidableEq, Repr

/-- `main` of process-mythril.py (lines 101–137) after the directory
check: categorize the flattened issues, write the summary, print the
high-severity advisory when the High group is non-empty, and fall off
the end of `main`, so the process exits 0. -/
def mythril_main (issues : List MythrilIssue) : MythrilRun :=
  let categories := categorize_mythril_findings issues
  { summaryJson := mythril_summary_json categories,
    highAdvisory := decide (0 < categories.High.length),
    exitCode := 0 }

/-! ## Summary aggregator data model -/

/-- The raw score before clamping, embedding the three conditional
deductions of `calculate_security_score`
(generate-security-summary.py lines 88–106). -/
def rawSecurityScore (critical_issues high_severity medium_severity : Nat) : Int :=
  let score : Int := 100
  let score := if critical_issues > 0 then score - critical_issues * 25 else score
  let score := if high_severity > 0 then score - high_severity * 15 else score
  let score := if medium_severity > 0 then score - medium_severity * 5 else score
  score

/-- The result record of `calculate_security_score`: the clamped score,
the status band and its display color. -/
structure SecurityScore where
  score : Int
  status : String
  color : String
  deriving DecidableEq, Repr

/-- `calculate_security_score` (lines 86–127): the status band is chosen
by thresholds on the raw score, and the returned score is
`max(0, score)`. -/
def calculate_security_score
    (critical_issues high_severity medium_severity : Nat) : SecurityScore :=
  let score := rawSecurityScore critical_issues high_severity medium_severity
  if score ≥ 95 then { score := max 0 score, status := "EXCELLENT", color := "green" }
  else if score ≥ 85 then { score := max 0 score, status := "GOOD", color := "yellowgreen" }
  else if score ≥ 70 then { score := max 0 score, status := "FAIR", color := "orange" }
  else { score := max 0 score, status := "NEEDS_ATTENTION", color := "red" }

/-! ## Helper lemmas -/

/-- Bucket characterization of the categorization loop: folding
`addDetector` over a detector list appends to each bucket exactly the
detectors whose tier selects that bucket, in input order. -/
theorem foldl_addDetector (ds : List Detector) (c0 : Categories) :
    ds.foldl addDetector c0 =
      { critical := c0.critical ++ ds.filter (fun d => tierOf d == Tier.critical),
        high := c0.high ++ ds.filter (fun d => tierOf d == Tier.high),
        medium := c0.medium ++ ds.filter (fun d => tierOf d == Tier.medium),
        low := c0.low ++ ds.filter (fun d => tierOf d == Tier.low),
        informational :=
          c0.informational ++ ds.filter (fun d => tierOf d == Tier.informational) } := by
  induction ds generalizing c0 with
  | nil => simp
  | cons d ds ih =>
    simp only [List.foldl_cons, List.filter_cons, ih]
    cases h : tierOf d <;>
      simp [addDetector, h, List.append_assoc]

/-- Bucket characterization of the Mythril categorization loop. -/
theorem foldl_addIssue (issues : List MythrilIssue) (c0 : MythrilCategories) :
    issues.foldl addIssue c0 =
      { High := c0.High ++ issues.filter (fun i => mythrilGroup i == "High"),
        Medium := c0.Medium ++ issues.filter (fun i => mythrilGroup i == "Medium"),
        Low := c0.Low ++ issues.filter (fun i => mythrilGroup i == "Low") } := by
  induction issues generalizing c0 with
  | nil => simp
  | cons i issues ih =>
    simp only [List.foldl_cons, List.filter_cons, ih]
    by_cases hH : i.severity.getD "Low" = "High"
    · simp [addIssue, mythrilGroup, hH, List.append_assoc]
    · by_cases hM : i.severity.getD "Low" = "Medium"
      · simp [addIssue, mythrilGroup, hH, hM, List.append_assoc]
      · by_cases hL : i.severity.getD "Low" = "Low"
        · simp [addIssue, mythrilGroup, hH, hM, hL, List.append_assoc]
        · simp [addIssue, mythrilGroup, hH, hM, hL, List.append_assoc]

/-- Closed form of the raw score: the three guards only skip
subtracting zero, so the raw score is the linear expression of the
specification. -/
theorem rawSecurityScore_closed (c h m : Nat) :
    rawSecurityScore c h m = 100 - 25 * (c : Int) - 15 * (h : Int) - 5 * (m : Int) := by
  simp only [rawSecurityScore]
  split_ifs <;> omega

/-- The first branch of the if/elif chain: a detector lands in the
critical tier exactly when its lower-cased impact and confidence are
both `high`. -/
theorem tierOf_eq_critical_iff (d : Detector) :
    tierOf d = Tier.critical ↔ (normImpact d = "high" ∧ normConfidence d = "high") := by
  simp only [tierOf]
  split_ifs with h1 h2 h3 h4 <;> simp_all

/-- Boolean form of `tierOf_eq_critical_iff`, matching the `isHighHigh`
predicate pointwise. -/
theorem tierOf_beq_critical_eq_isHighHigh (d : Detector) :
    (tierOf d == Tier.critical) = isHighHigh d := by
  by_cases h : tierOf d = Tier.critical
  · simp [h, isHighHigh, ((tierOf_eq_critical_iff d).mp h).1,
      ((tierOf_eq_critical_iff d).mp h).2]
  · have h2 := (tierOf_eq_critical_iff d).not.mp h
    simp only [beq_iff_eq, h, isHighHigh]
    by_cases hi : normImpact d = "high" <;> by_cases hc : normConfidence d = "high" <;>
      simp_all

/-- Evaluating `categorize_findings` on a report with a detectors list:
every bucket is the filter of the detectors selecting that tier. -/
theorem categorize_findings_resultsWith (ds : List Detector) :
    categorize_findings (SlitherReport.resultsWith ds) =
      some
        { critical := ds.filter (fun d => tierOf d == Tier.critical),
          high := ds.filter (fun d => tierOf d == Tier.high),
          medium := ds.filter (fun d => tierOf d == Tier.medium),
          low := ds.filter (fun d => tierOf d == Tier.low),
          informational := ds.filter (fun d => tierOf d == Tier.informational) } := by
  simp [categorize_findings, foldl_addDetector, emptyCategories]

/-- Projection of `calculate_security_score` to the returned score: the
clamp of the closed-form linear expression. -/
theorem calculate_security_score_score (c h m : Nat) :
    (calculate_security_score c h m).score =
      max 0 (100 - 25 * (c : Int) - 15 * (h : Int) - 5 * (m : Int)) := by
  have hr := rawSecurityScore_closed c h m
  simp only [calculate_security_score]
  split_ifs <;> simp [hr]

/-- Projection of `calculate_security_score` to the status string: the
threshold chain evaluated on the raw (unclamped) score. -/
theorem calculate_security_score_status (c h m : Nat) :
    (calculate_security_score c h m).status =
      (if rawSecurityScore c h m ≥ 95 then "EXCELLENT"
       else if rawSecurityScore c h m ≥ 85 then "GOOD"
       else if rawSecurityScore c h m ≥ 70 then "FAIR"
       else "NEEDS_ATTENTION") := by
  simp only [calculate_security_score]
  split_ifs <;> rfl

/-- The group label of an issue is always one of the three dict keys. -/
theorem mythrilGroup_cases (i : MythrilIssue) :
    mythrilGroup i = "High" ∨ mythrilGroup i = "Medium" ∨ mythrilGroup i = "Low" := by
  simp only [mythrilGroup]
  split_ifs with h
  · rcases h with h | h | h <;> simp [h]
  · simp

/-- The three Mythril groups, concatenated, are a permutation of the
input issue list: each issue is placed in exactly one group. -/
theorem mythril_groups_perm (issues : List MythrilIssue) :
    ((categorize_mythril_findings issues).High ++
      ((categorize_mythril_findings issues).Medium ++
        (categorize_mythril_findings issues).Low)).Perm issues := by
  rw [categorize_mythril_findings, foldl_addIssue]
  simp only [List.nil_append]
  have h1 := List.filter_append_perm (fun i => mythrilGroup i == "High") issues
  have h2 := List.filter_append_perm (fun i => mythrilGroup i == "Medium")
      (issues.filter (fun i => !(mythrilGroup i == "High")))
  have e1 : (issues.filter (fun i => !(mythrilGroup i == "High"))).filter
      (fun i => mythrilGroup i == "Medium") =
      issues.filter (fun i => mythrilGroup i == "Medium") := by
    rw [List.filter_filter]
    apply List.filter_congr
    intro a _
    rcases mythrilGroup_cases a with h | h | h <;> simp [h]
  have e2 : (issues.filter (fun i => !(mythrilGroup i == "High"))).filter
      (fun i => !(mythrilGroup i == "Medium")) =
      issues.filter (fun i => mythrilGroup i == "Low") := by
    rw [List.filter_filter]
    apply List.filter_congr
    intro a _
    rcases mythrilGroup_cases a with h | h | h <;> simp [h]
  refine List.Perm.trans (List.Perm.append_left _ ?_) h1
  rw [← e1, ← e2]
  exact h2

/-! ## Claim theorems -/

/-- C1: every detector record is classified by lower-casing its impact
and confidence strings and applying the first-match-wins rule list:
(high,high) is critical; (high,medium) or (medium,high) is high;
(medium,medium) or (high,low) is medium; otherwise impact low or
confidence low is low; anything else is informational.  In particular a
record is critical if and only if impact and confidence are both high. -/
theorem slither_tier_assignment (d : Detector) :
    (tierOf d = Tier.critical ↔
      (normImpact d = "high" ∧ normConfidence d = "high"))
  ∧ (tierOf d = Tier.high ↔
      (¬(normImpact d = "high" ∧ normConfidence d = "high") ∧
        ((normImpact d = "high" ∧ normConfidence d = "medium") ∨
          (normImpact d = "medium" ∧ normConfidence d = "high"))))
  ∧ (tierOf d = Tier.medium ↔
      (¬(normImpact d = "high" ∧ normConfidence d = "high") ∧
        ¬((normImpact d = "high" ∧ normConfidence d = "medium") ∨
          (normImpact d = "medium" ∧ normConfidence d = "high")) ∧
        ((normImpact d = "medium" ∧ normConfidence d = "medium") ∨
          (normImpact d = "high" ∧ normConfidence d = "low"))))
  ∧ (tierOf d = Tier.low ↔
      (¬(normImpact d = "high" ∧ normConfidence d = "high") ∧
        ¬((normImpact d = "high" ∧ normConfidence d = "medium") ∨
          (normImpact d = "medium" ∧ normConfidence d = "high")) ∧
        ¬((normImpact d = "medium" ∧ normConfidence d = "medium") ∨
          (normImpact d = "high" ∧ normConfidence d = "low")) ∧
        (normImpact d = "low" ∨ normConfidence d = "low")))
  ∧ (tierOf d = Tier.informational ↔
      (¬(normImpact d = "high" ∧ normConfidence d = "high") ∧
        ¬((normImpact d = "high" ∧ normConfidence d = "medium") ∨
          (normImpact d = "medium" ∧ normConfidence d = "high")) ∧
        ¬((normImpact d = "medium" ∧ normConfidence d = "medium") ∨
          (normImpact d = "high" ∧ normConfidence d = "low")) ∧
        ¬(normImpact d = "low" ∨ normConfidence d = "low"))) := by
  simp only [tierOf]
  split_ifs with h1 h2 h3 h4 <;>
    refine ⟨?_, ?_, ?_, ?_, ?_⟩ <;> simp_all

/-- Witness for C1: a detector with impact High and confidence High is
classified critical, and one with impact Low and confidence High lands
in the low tier. -/
theorem slither_tier_assignment_witness :
    tierOf ⟨some "High", some "High", "c", "d", []⟩ = Tier.critical
  ∧ tierOf ⟨some "Low", some "High", "c", "d", []⟩ = Tier.low :=
  ⟨(slither_tier_assignment ⟨some "High", some "High", "c", "d", []⟩).1.mpr (by decide),
   (slither_tier_assignment ⟨some "Low", some "High", "c", "d", []⟩).2.2.2.1.mpr (by decide)⟩

/-- C2: the aggregator score equals
max(0, 100 − 25·critical − 15·high − 5·medium) for all non-negative
integer counts, is monotonically non-increasing in each of the three
inputs, and score(0,0,0) = 100. -/
theorem aggregator_score_formula (c h m : Nat) :
    (calculate_security_score c h m).score =
      max 0 (100 - 25 * (c : Int) - 15 * (h : Int) - 5 * (m : Int))
  ∧ (∀ c2 : Nat, c ≤ c2 →
      (calculate_security_score c2 h m).score ≤ (calculate_security_score c h m).score)
  ∧ (∀ h2 : Nat, h ≤ h2 →
      (calculate_security_score c h2 m).score ≤ (calculate_security_score c h m).score)
  ∧ (∀ m2 : Nat, m ≤ m2 →
      (calculate_security_score c h m2).score ≤ (calculate_security_score c h m).score)
  ∧ (calculate_security_score 0 0 0).score = 100 := by
  refine ⟨calculate_security_score_score c h m, ?_, ?_, ?_, by decide⟩
  · intro c2 hc
    rw [calculate_security_score_score, calculate_security_score_score]
    exact max_le_max le_rfl (by omega)
  · intro h2 hh
    rw [calculate_security_score_score, calculate_security_score_score]
    exact max_le_max le_rfl (by omega)
  · intro m2 hm
    rw [calculate_security_score_score, calculate_security_score_score]
    exact max_le_max le_rfl (by omega)

/-- Witness for C2 at concrete inputs: monotonicity applied at
(1,1,1) against (2,1,1), (1,2,1) and (1,1,2), and the zero-count score. -/
theorem aggregator_score_formula_witness :
    (calculate_security_score 2 1 1).score ≤ (calculate_security_score 1 1 1).score
  ∧ (calculate_security_score 1 2 1).score ≤ (calculate_security_score 1 1 1).score
  ∧ (calculate_security_score 1 1 2).score ≤ (calculate_security_score 1 1 1).score
  ∧ (calculate_security_score 0 0 0).score = 100 :=
  ⟨(aggregator_score_formula 1 1 1).2.1 2 (by decide),
   (aggregator_score_formula 1 1 1).2.2.1 2 (by decide),
   (aggregator_score_formula 1 1 1).2.2.2.1 2 (by decide),
   (aggregator_score_formula 0 0 0).2.2.2.2⟩

/-- C3: for every input, the returned status band is EXCELLENT exactly
when the returned score is at least 95, GOOD on [85,95), FAIR on
[70,85) and NEEDS_ATTENTION below 70 — contiguous and exhaustive bands
over [0,100] with inclusive lower thresholds; and the concrete inputs
(critical=1, high=0, medium=0) give score 75 with status FAIR while
(critical=0, high=2, medium=3) give score 55 with status
NEEDS_ATTENTION. -/
theorem aggregator_status_bands (c h m : Nat) :
    (calculate_security_score 1 0 0).score = 75
  ∧ (calculate_security_score 1 0 0).status = "FAIR"
  ∧ (calculate_security_score 0 2 3).score = 55
  ∧ (calculate_security_score 0 2 3).status = "NEEDS_ATTENTION"
  ∧ 0 ≤ (calculate_security_score c h m).score
  ∧ (calculate_security_score c h m).score ≤ 100
  ∧ ((calculate_security_score c h m).status = "EXCELLENT" ↔
      95 ≤ (calculate_security_score c h m).score)
  ∧ ((calculate_security_score c h m).status = "GOOD" ↔
      (85 ≤ (calculate_security_score c h m).score ∧
        (calculate_security_score c h m).score < 95))
  ∧ ((calculate_security_score c h m).status = "FAIR" ↔
      (70 ≤ (calculate_security_score c h m).score ∧
        (calculate_security_score c h m).score < 85))
  ∧ ((calculate_security_score c h m).status = "NEEDS_ATTENTION" ↔
      (calculate_security_score c h m).score < 70) := by
  have key :
      0 ≤ (calculate_security_score c h m).score
    ∧ (calculate_security_score c h m).score ≤ 100
    ∧ ((calculate_security_score c h m).status = "EXCELLENT" ↔
        95 ≤ (calculate_security_score c h m).score)
    ∧ ((calculate_security_score c h m).status = "GOOD" ↔
        (85 ≤ (calculate_security_score c h m).score ∧
          (calculate_security_score c h m).score < 95))
    ∧ ((calculate_security_score c h m).status = "FAIR" ↔
        (70 ≤ (calculate_security_score c h m).score ∧
          (calculate_security_score c h m).score < 85))
    ∧ ((calculate_security_score c h m).status = "NEEDS_ATTENTION" ↔
        (calculate_security_score c h m).score < 70) := by
    have hs := calculate_security_score_score c h m
    have ht := calculate_security_score_status c h m
    have hr := rawSecurityScore_closed c h m
    rw [hs, ht, hr]
    rcases le_or_lt 0 (100 - 25 * (c : Int) - 15 * (h : Int) - 5 * (m : Int)) with h0 | h0
    · rw [max_eq_right h0]
      split_ifs <;> refine ⟨by omega, by omega, ?_, ?_, ?_, ?_⟩ <;> simp <;> omega
    · rw [max_eq_left h0.le]
      split_ifs <;> refine ⟨by omega, by omega, ?_, ?_, ?_, ?_⟩ <;> simp <;> omega
  exact ⟨by decide, by decide, by decide, by decide, key.1, key.2.1, key.2.2.1,
    key.2.2.2.1, key.2.2.2.2.1, key.2.2.2.2.2⟩

/-- Witness for C3: the two concrete score/status examples extracted by
applying the bands theorem at zero counts. -/
theorem aggregator_status_bands_witness :
    (calculate_security_score 1 0 0).score = 75
  ∧ (calculate_security_score 1 0 0).status = "FAIR"
  ∧ (calculate_security_score 0 2 3).score = 55
  ∧ (calculate_security_score 0 2 3).status = "NEEDS_ATTENTION" :=
  ⟨(aggregator_status_bands 0 0 0).1, (aggregator_status_bands 0 0 0).2.1,
   (aggregator_status_bands 0 0 0).2.2.1, (aggregator_status_bands 0 0 0).2.2.2.1⟩

/-- C4: for a well-formed invocation with an existing report file
(categorization succeeds without a KeyError), the static-analysis
processor exits with failure status 1 if and only if the critical tier
is non-empty, and with success status 0 otherwise. -/
theorem slither_exit_gating (parsed : Option SlitherReport) (cats : Categories)
    (hc : categorize_findings (load_slither_report parsed) = some cats) :
    slither_main parsed = some (slither_exit_code cats)
  ∧ (slither_main parsed = some 1 ↔ cats.critical ≠ [])
  ∧ (slither_main parsed = some 0 ↔ cats.critical = []) := by
  have hmain : slither_main parsed = some (slither_exit_code cats) := by
    simp [slither_main, hc]
  refine ⟨hmain, ?_, ?_⟩ <;>
    rcases hcrit : cats.critical with _ | ⟨a, l⟩ <;>
      simp [hmain, slither_exit_code, hcrit]

/-- Witness for C4: one report with a single high/high detector exits 1,
and one with no detectors exits 0. -/
theorem slither_exit_gating_witness :
    slither_main (some (SlitherReport.resultsWith
      [{ impact := some "High", confidence := some "High", check := "reentrancy",
         description := "desc", rest := [] }])) = some 1
  ∧ slither_main (some (SlitherReport.resultsWith [])) = some 0 :=
  ⟨(slither_exit_gating (some (SlitherReport.resultsWith
      [{ impact := some "High", confidence := some "High", check := "reentrancy",
         description := "desc", rest := [] }])) _ rfl).2.1.mpr (by decide),
   (slither_exit_gating (some (SlitherReport.resultsWith [])) _ rfl).2.2.mpr rfl⟩

/-- C5: the critical-issues JSON array is exactly the critical-tier
records, copied verbatim from the input detectors list (it is the
subsequence of the input filtered by the critical rule), and its length
is the number of detectors with lower-cased impact high and confidence
high. -/
theorem critical_issues_verbatim (ds : List Detector) (cats : Categories)
    (hc : categorize_findings (SlitherReport.resultsWith ds) = some cats) :
    critical_issues_json cats = ds.filter (fun d => isHighHigh d)
  ∧ (critical_issues_json cats).length = ds.countP (fun d => isHighHigh d) := by
  rw [categorize_findings_resultsWith ds] at hc
  obtain rfl : _ = cats := Option.some.inj hc
  have hfilter : ds.filter (fun d => tierOf d == Tier.critical) =
      ds.filter (fun d => isHighHigh d) :=
    List.filter_congr fun d _ => tierOf_beq_critical_eq_isHighHigh d
  refine ⟨hfilter, ?_⟩
  rw [critical_issues_json, hfilter, List.countP_eq_length_filter]

/-- Witness for C5: a two-detector report where only the first detector
is high/high yields a one-element critical array holding that record. -/
theorem critical_issues_verbatim_witness :
    critical_issues_json
        ⟨[⟨some "High", some "high", "a", "da", [("id", "1")]⟩], [], [],
          [⟨some "Low", some "high", "b", "db", []⟩], []⟩ =
      [⟨some "High", some "high", "a", "da", [("id", "1")]⟩] :=
  (critical_issues_verbatim
    [⟨some "High", some "high", "a", "da", [("id", "1")]⟩,
     ⟨some "Low", some "high", "b", "db", []⟩] _ rfl).1

/-- C6: every issue's severity label is used as-is when it is one of
High, Medium or Low, and otherwise — including an absent severity field
and the label Critical — the issue goes to the Low group; the three
groups are exactly the filters of the input by the group label. -/
theorem mythril_severity_rules (issues : List MythrilIssue) (i : MythrilIssue) :
    (categorize_mythril_findings issues).High =
      issues.filter (fun j => mythrilGroup j == "High")
  ∧ (categorize_mythril_findings issues).Medium =
      issues.filter (fun j => mythrilGroup j == "Medium")
  ∧ (categorize_mythril_findings issues).Low =
      issues.filter (fun j => mythrilGroup j == "Low")
  ∧ (∀ s : String, i.severity = some s →
      (s = "High" ∨ s = "Medium" ∨ s = "Low") → mythrilGroup i = s)
  ∧ (i.severity = none → mythrilGroup i = "Low")
  ∧ (i.severity = some "Critical" → mythrilGroup i = "Low")
  ∧ (mythrilGroup i = "High" ∨ mythrilGroup i = "Medium" ∨ mythrilGroup i = "Low") := by
  have hg := foldl_addIssue issues { High := [], Medium := [], Low := [] }
  refine ⟨?_, ?_, ?_, ?_, ?_, ?_, mythrilGroup_cases i⟩
  · rw [categorize_mythril_findings, hg]
    simp
  · rw [categorize_mythril_findings, hg]
    simp
  · rw [categorize_mythril_findings, hg]
    simp
  · intro s hs hmem
    simp [mythrilGroup, hs]
    rcases hmem with h | h | h <;> simp [h]
  · intro hs
    simp [mythrilGroup, hs]
  · intro hs
    simp [mythrilGroup, hs]

/-- Witness for C6: an issue labelled Critical and an issue with no
severity field are both placed in the Low group, and a High label is
kept as-is. -/
theorem mythril_severity_rules_witness :
    mythrilGroup ⟨some "Critical", none, none, none, none, none⟩ = "Low"
  ∧ mythrilGroup ⟨none, none, none, none, none, none⟩ = "Low"
  ∧ mythrilGroup ⟨some "High", none, none, none, none, none⟩ = "High" :=
  ⟨(mythril_severity_rules [] ⟨some "Critical", none, none, none, none, none⟩).2.2.2.2.2.1 rfl,
   (mythril_severity_rules [] ⟨none, none, none, none, none, none⟩).2.2.2.2.1 rfl,
   (mythril_severity_rules [] ⟨some "High", none, none, none, none, none⟩).2.2.2.1
     "High" rfl (Or.inl rfl)⟩

/-- C7: an unparseable report (load yields the empty dict) or a parsed
report without a `results` key is treated as zero findings: the
categorization is empty in every tier, the critical-issues array is
empty, the Markdown reports no issues, and the process exits 0. -/
theorem malformed_report_zero_findings (parsed : Option SlitherReport)
    (hp : parsed = none ∨ parsed = some SlitherReport.noResults) :
    categorize_findings (load_slither_report parsed) = some emptyCategories
  ∧ slither_main parsed = some 0
  ∧ critical_issues_json emptyCategories = []
  ∧ slither_markdown_no_issues emptyCategories = true
  ∧ total_findings emptyCategories = 0 := by
  rcases hp with rfl | rfl <;> exact ⟨rfl, rfl, rfl, rfl, rfl⟩

/-- Witness for C7 at the concrete parse-failure input. -/
theorem malformed_report_zero_findings_witness :
    categorize_findings (load_slither_report none) = some emptyCategories
  ∧ slither_main none = some 0
  ∧ critical_issues_json emptyCategories = []
  ∧ slither_markdown_no_issues emptyCategories = true
  ∧ total_findings emptyCategories = 0 :=
  malformed_report_zero_findings none (Or.inl rfl)

/-- C8: for a well-formed invocation with an existing reports
directory, the symbolic-execution processor always exits 0 regardless
of the findings, and the high-severity advisory message is printed
exactly when the High group is non-empty. -/
theorem mythril_always_succeeds (issues : List MythrilIssue) :
    (mythril_main issues).exitCode = 0
  ∧ ((mythril_main issues).highAdvisory = true ↔
      0 < (categorize_mythril_findings issues).High.length) := by
  refine ⟨rfl, ?_⟩
  simp [mythril_main]

/-- Witness for C8: the processor exits 0 both on an empty issue list
and on a list with a High-severity issue. -/
theorem mythril_always_succeeds_witness :
    (mythril_main []).exitCode = 0
  ∧ (mythril_main [⟨some "High", none, none, none, none, none⟩]).exitCode = 0 :=
  ⟨(mythril_always_succeeds []).1,
   (mythril_always_succeeds [⟨some "High", none, none, none, none, none⟩]).1⟩

/-- C9: the static-analysis processor's tolerance does not cover a
report whose `results` value lacks a `detectors` key: there
`categorize_findings` raises an uncaught KeyError (modelled as `none`)
instead of returning the empty categorization, and that is the only
input shape on which it is not total. -/
theorem categorize_findings_keyError (r : SlitherReport) :
    categorize_findings SlitherReport.resultsNoDetectors = none
  ∧ ((categorize_findings r).isSome ↔ r ≠ SlitherReport.resultsNoDetectors) := by
  refine ⟨rfl, ?_⟩
  cases r <;> simp [categorize_findings]

/-- Witness for C9: the KeyError shape evaluates to `none`, while a
report with an empty detectors list categorizes successfully. -/
theorem categorize_findings_keyError_witness :
    categorize_findings SlitherReport.resultsNoDetectors = none
  ∧ (categorize_findings (SlitherReport.resultsWith [])).isSome = true :=
  ⟨(categorize_findings_keyError SlitherReport.noResults).1,
   (categorize_findings_keyError (SlitherReport.resultsWith [])).2.mpr (by decide)⟩

/-- C10: the three severity groups partition the input issue list (the
concatenation of the groups is a permutation of the input), the summary
JSON has exactly one record per input issue, and every summary record
carries a severity among High, Medium and Low. -/
theorem mythril_summary_partition (issues : List MythrilIssue) :
    ((categorize_mythril_findings issues).High ++
      ((categorize_mythril_findings issues).Medium ++
        (categorize_mythril_findings issues).Low)).Perm issues
  ∧ (categorize_mythril_findings issues).High.length +
      (categorize_mythril_findings issues).Medium.length +
      (categorize_mythril_findings issues).Low.length = issues.length
  ∧ (mythril_summary_json (categorize_mythril_findings issues)).length = issues.length
  ∧ ∀ rcd ∈ mythril_summary_json (categorize_mythril_findings issues),
      rcd.severity = "High" ∨ rcd.severity = "Medium" ∨ rcd.severity = "Low" := by
  have hperm := mythril_groups_perm issues
  have hlen := hperm.length_eq
  simp only [List.length_append] at hlen
  refine ⟨hperm, by omega, ?_, ?_⟩
  · simp only [mythril_summary_json, List.length_append, List.length_map]
    omega
  · intro rcd hr
    simp only [mythril_summary_json, List.mem_append, List.mem_map] at hr
    rcases hr with (⟨i, _, rfl⟩ | ⟨i, _, rfl⟩) | ⟨i, _, rfl⟩
    · exact Or.inl rfl
    · exact Or.inr (Or.inl rfl)
    · exact Or.inr (Or.inr rfl)

/-- Witness for C10: the membership conjunct applied to the summary of
a singleton issue list with an unknown severity label. -/
theorem mythril_summary_partition_witness :
    (⟨"Low", "t", "", "Unknown", "Unknown", ""⟩ : MythrilSummaryRecord).severity = "High"
  ∨ (⟨"Low", "t", "", "Unknown", "Unknown", ""⟩ : MythrilSummaryRecord).severity = "Medium"
  ∨ (⟨"Low", "t", "", "Unknown", "Unknown", ""⟩ : MythrilSummaryRecord).severity = "Low" :=
  (mythril_summary_partition [⟨some "Critical", some "t", some "", none, none, none⟩]).2.2.2
    ⟨"Low", "t", "", "Unknown", "Unknown", ""⟩ (by decide)

end PayRox
